import Mathlib

/-!
Verification of `filter_clearinghouse_data.py`, a single-pass batch filter
over a table of student enrollment records.

The script reads a CSV with `dtype=str` (every cell is a string or NaN),
checks that eleven required columns are present, parses the College
Sequence column numerically (`pd.to_numeric(..., errors="coerce")`, so
unparsable cells become NaN), derives uppercase/trimmed copies of the
Enrollment Status and Graduated? columns, keeps the rows whose sequence is
greater than 1 and whose normalized status is not W or D, then drops rows
whose normalized graduated flag is Y, and finally writes the surviving rows
projected onto a fixed list of eleven output columns.

The embedding models a cell as `Cell` (a string, the NaN sentinel, or a
parsed number), a row as a total function from column names to cells, and
the whole `main` pipeline (after the file I/O plumbing) as the pure
function `run`, parameterized by the `DEBUG` flag.  The diagnostic prints
are modelled as the list of row counts the script would report.
-/

/-- A pandas cell as the script sees it: a string value, the missing-value
sentinel NaN, or a parsed numeric value (after `pd.to_numeric`). -/
inductive Cell where
  | str (s : String)
  | nan
  | num (q : Rat)
deriving DecidableEq

/-- Column-name constants, as in lines 26-36 of the script. -/
def COL_FIRST_NAME : String := "First Name"

def COL_MIDDLE_NAME : String := "Middle Initial"

def COL_LAST_NAME : String := "Last Name"

def COL_REQUESTER_ID : String := "Requester Return Field"

def COL_COLLEGE_NAME : String := "College Name"

def COL_ENROLLMENT_MAJOR : String := "Enrollment Major 1"

def COL_CLASS_LEVEL : String := "Class Level"

def COL_ENROLL_STATUS : String := "Enrollment Status"

def COL_ENROLL_DATE : String := "Enrollment End"

def COL_COLLEGE_SEQ : String := "College Sequence"

def COL_GRADUATED : String := "Graduated?"

/-- The derived column name assigned on line 61. -/
def COL_STATUS_NORM : String := "_status_norm"

/-- The derived column name assigned on line 62. -/
def COL_GRAD_NORM : String := "_grad_norm"

/-- The global debug toggle (line 38). -/
def DEBUG : Bool := true

/-- The `required_cols` list of lines 47-51. -/
def required_cols : List String :=
  [COL_FIRST_NAME, COL_MIDDLE_NAME, COL_LAST_NAME, COL_REQUESTER_ID,
   COL_COLLEGE_NAME, COL_ENROLLMENT_MAJOR, COL_CLASS_LEVEL,
   COL_ENROLL_STATUS, COL_ENROLL_DATE, COL_COLLEGE_SEQ, COL_GRADUATED]

/-- The `output_cols` list of lines 80-92. -/
def output_cols : List String :=
  [COL_FIRST_NAME, COL_MIDDLE_NAME, COL_LAST_NAME, COL_REQUESTER_ID,
   COL_COLLEGE_NAME, COL_ENROLLMENT_MAJOR, COL_CLASS_LEVEL,
   COL_ENROLL_STATUS, COL_ENROLL_DATE, COL_COLLEGE_SEQ, COL_GRADUATED]

/-- Python's `str.upper()` restricted to ASCII: uppercase every character. -/
def pyUpper (s : String) : String := String.mk (s.data.map Char.toUpper)

/-- Python's `str.strip()`: drop leading and trailing whitespace. -/
def pyStrip (s : String) : String :=
  String.mk (((s.data.dropWhile Char.isWhitespace).reverse.dropWhile Char.isWhitespace).reverse)

/-- Value of a nonempty all-digit character list, most significant first. -/
def digitsVal (cs : List Char) : Nat :=
  cs.foldl (fun n c => 10 * n + (c.toNat - 48)) 0

/-- Numeric value of an unsigned decimal literal: digits, optionally with a
decimal point (`"12"`, `"12.5"`, `"12."`, `".5"`); anything else fails. -/
def parseUnsigned (cs : List Char) : Option Rat :=
  match cs.splitOn (Char.ofNat 46) with
  | [w] =>
      if !w.isEmpty && w.all Char.isDigit then some (digitsVal w : Rat)
      else none
  | [w, f] =>
      if (!w.isEmpty || !f.isEmpty) && w.all Char.isDigit && f.all Char.isDigit then
        some ((digitsVal w : Rat) + (digitsVal f : Rat) / ((10 : Rat) ^ f.length))
      else none
  | _ => none

/-- The numeric parse performed per cell by `pd.to_numeric` on string input:
leading/trailing whitespace is ignored, an optional sign precedes an
unsigned decimal literal; parse failure yields `none` (the NaN sentinel),
never a default number.  (Modelled for plain decimal literals, which is all
the claims depend on.) -/
def parseNum (s : String) : Option Rat :=
  match (pyStrip s).toList with
  | [] => none
  | c :: rest =>
      if c = Char.ofNat 43 then parseUnsigned rest
      else if c = Char.ofNat 45 then (parseUnsigned rest).map (fun q => -q)
      else parseUnsigned (c :: rest)

/-- `pd.to_numeric(cell, errors="coerce")`: strings are parsed (failure
gives NaN), NaN stays NaN, numbers stay themselves. -/
def toNumericCell : Cell → Cell
  | Cell.str s =>
      match parseNum s with
      | some q => Cell.num q
      | none => Cell.nan
  | Cell.nan => Cell.nan
  | Cell.num q => Cell.num q

/-- `.str.upper().str.strip()` on one cell: a string is uppercased then
trimmed; a non-string value (NaN in particular) propagates as NaN. -/
def strNormCell : Cell → Cell
  | Cell.str s => Cell.str (pyStrip (pyUpper s))
  | _ => Cell.nan

/-- A row: a total map from column names to cells. -/
abbrev Row := String → Cell

/-- The in-memory table: a header naming the columns present, and the rows
in file order. -/
structure Table where
  header : List String
  rows : List Row

/-- One output record: the projected (column, value) pairs in output order. -/
abbrev OutRow := List (String × Cell)

/-- The normalization block (lines 60-62): the College Sequence column is
reassigned to its numeric parse, and the two derived normalization columns
are added; every other column is untouched. -/
def applyNormalize (r : Row) : Row := fun c =>
  if c = COL_COLLEGE_SEQ then toNumericCell (r COL_COLLEGE_SEQ)
  else if c = COL_STATUS_NORM then strNormCell (r COL_ENROLL_STATUS)
  else if c = COL_GRAD_NORM then strNormCell (r COL_GRADUATED)
  else r c

/-- `series > 1` on the parsed College Sequence column: true only for a
parsed number greater than 1; NaN (and any non-number) compares false. -/
def cellGtOne : Cell → Bool
  | Cell.num q => decide (1 < q)
  | _ => false

/-- `series.isin({"W", "D"})` on one cell: NaN is a member of no set. -/
def isinWD : Cell → Bool
  | Cell.str s => s == "W" || s == "D"
  | _ => false

/-- `series != "Y"` on one cell: NaN compares unequal to every string. -/
def cellNeY : Cell → Bool
  | Cell.str s => s != "Y"
  | _ => true

/-- The stage-1 mask (lines 65-68): `mask_seq_gt1 & mask_status`, evaluated
on a normalized row (the sequence column already parsed, the derived status
column already present). -/
def keepRow1B (r : Row) : Bool :=
  cellGtOne (r COL_COLLEGE_SEQ) && !isinWD (r COL_STATUS_NORM)

/-- The stage-2 mask (line 74): the Graduated? column of the surviving rows
is re-normalized inline and compared against Y. -/
def keepRow2B (r : Row) : Bool :=
  cellNeY (strNormCell (r COL_GRADUATED))

/-- The projection (line 94): each surviving row restricted to the eleven
output columns, in their fixed order. -/
def project (r : Row) : OutRow :=
  output_cols.map (fun c => (c, r c))

/-- The whole per-table computation of `main` (lines 41-95), parameterized
by the debug flag.  A missing required column aborts with the list of
missing columns (the `ValueError` of line 54) before any row is processed;
otherwise the result is the projected output table together with the list
of row counts the script reports at each stage. -/
def run (debug : Bool) (t : Table) : Except (List String) (List OutRow × List Nat) :=
  let missing := required_cols.filter (fun c => !t.header.contains c)
  if missing.isEmpty then
    let df := t.rows.map applyNormalize
    let log1 := if debug then [df.length] else []
    let df_final := df.filter keepRow1B
    let log2 := if debug then [df_final.length] else []
    let df_final2 := df_final.filter keepRow2B
    let log3 := if debug then [df_final2.length] else []
    Except.ok (df_final2.map project, log1 ++ log2 ++ log3)
  else
    Except.error missing

/-- The rows of the output table of a run (empty when the run aborts: an
aborted run writes nothing). -/
def runOutput (debug : Bool) (t : Table) : List OutRow :=
  match run debug t with
  | Except.ok p => p.1
  | Except.error _ => []

/-- Projection of a raw input row through normalization, as it would appear
in the output. -/
def projNorm (r : Row) : OutRow := project (applyNormalize r)

/-- The combined per-input-row keep decision: both masks evaluated on the
normalized row. -/
def keepAllB (r : Row) : Bool :=
  keepRow1B (applyNormalize r) && keepRow2B (applyNormalize r)

/-- The numeric value a cell parses to, if any: a string cell parses per
`parseNum`, a NaN cell has no numeric value, a numeric cell is itself. -/
def parsedNumOfCell : Cell → Option Rat
  | Cell.str s => parseNum s
  | Cell.nan => none
  | Cell.num q => some q

/-- The eligibility predicate exactly as the specification words it: the
College Sequence cell parses as a number strictly greater than 1, the
uppercased whitespace-trimmed Enrollment Status is not in the set
containing W and D, and the uppercased whitespace-trimmed Graduated? flag
is not Y (a missing cell has no normalized string and matches no rule). -/
def specKeepB (r : Row) : Bool :=
  (match parsedNumOfCell (r COL_COLLEGE_SEQ) with
   | some q => decide (1 < q)
   | none => false)
  &&
  (match strNormCell (r COL_ENROLL_STATUS) with
   | Cell.str s => !(s == "W" || s == "D")
   | _ => true)
  &&
  (match strNormCell (r COL_GRADUATED) with
   | Cell.str s => s != "Y"
   | _ => true)

/-- The graduated check formulated over the precomputed derived column
`_grad_norm` instead of re-normalizing the raw column inline. -/
def gradCheckViaNormCol (r : Row) : Bool :=
  cellNeY (r COL_GRAD_NORM)

/-- A concrete row: sequence 2, status E, not graduated (Scenario A). -/
def rowA : Row := fun c =>
  if c = COL_COLLEGE_SEQ then Cell.str "2"
  else if c = COL_ENROLL_STATUS then Cell.str "E"
  else if c = COL_GRADUATED then Cell.str "N"
  else Cell.str "x"

/-- A concrete one-row table holding `rowA`. -/
def tableA : Table := { header := required_cols, rows := [rowA] }

/-- A concrete row whose status and graduated cells are missing (NaN) and
whose sequence is 3. -/
def rowB : Row := fun c =>
  if c = COL_COLLEGE_SEQ then Cell.str "3" else Cell.nan

/-- A concrete one-row table holding `rowB`. -/
def tableB : Table := { header := required_cols, rows := [rowB] }

/-- A concrete row with an unparsable sequence cell (Scenario E). -/
def rowC : Row := fun c =>
  if c = COL_COLLEGE_SEQ then Cell.str "abc"
  else if c = COL_ENROLL_STATUS then Cell.str "E"
  else if c = COL_GRADUATED then Cell.str "N"
  else Cell.str "x"

/-- A concrete one-row table holding `rowC`. -/
def tableC : Table := { header := required_cols, rows := [rowC] }

/-- A concrete table whose header lacks the Graduated? column. -/
def tableMissing : Table :=
  { header := [COL_FIRST_NAME, COL_MIDDLE_NAME, COL_LAST_NAME, COL_REQUESTER_ID,
               COL_COLLEGE_NAME, COL_ENROLLMENT_MAJOR, COL_CLASS_LEVEL,
               COL_ENROLL_STATUS, COL_ENROLL_DATE, COL_COLLEGE_SEQ],
    rows := [rowA] }

lemma isEmpty_missing_iff (t : Table) :
    (required_cols.filter (fun c => !t.header.contains c)).isEmpty = true ↔
      (∀ c ∈ required_cols, c ∈ t.header) := by
  rw [List.isEmpty_iff, List.filter_eq_nil_iff]
  constructor
  · intro h c hc
    have := h c hc
    simpa [List.elem_iff] using this
  · intro h c hc
    simpa [List.elem_iff] using h c hc

lemma run_ok_of_schema (d : Bool) (t : Table) (h : ∀ c ∈ required_cols, c ∈ t.header) :
    run d t =
      Except.ok ((((t.rows.map applyNormalize).filter keepRow1B).filter keepRow2B).map project,
        (if d then [(t.rows.map applyNormalize).length] else []) ++
        (if d then [((t.rows.map applyNormalize).filter keepRow1B).length] else []) ++
        (if d then [(((t.rows.map applyNormalize).filter keepRow1B).filter keepRow2B).length]
         else [])) := by
  have hh : (required_cols.filter (fun c => !t.header.contains c)).isEmpty = true :=
    (isEmpty_missing_iff t).mpr h
  unfold run
  rw [if_pos hh]

lemma run_error_of_schema (d : Bool) (t : Table) (h : ¬ ∀ c ∈ required_cols, c ∈ t.header) :
    run d t = Except.error (required_cols.filter (fun c => !t.header.contains c)) := by
  have hh : ¬ (required_cols.filter (fun c => !t.header.contains c)).isEmpty = true := by
    intro hc
    exact h ((isEmpty_missing_iff t).mp hc)
  unfold run
  rw [if_neg hh]

lemma keepAllB_comm (r : Row) :
    (keepRow2B (applyNormalize r) && keepRow1B (applyNormalize r)) = keepAllB r := by
  unfold keepAllB
  exact Bool.and_comm _ _

lemma runOutput_char (d : Bool) (t : Table) (h : ∀ c ∈ required_cols, c ∈ t.header) :
    runOutput d t = (t.rows.filter keepAllB).map projNorm := by
  unfold runOutput
  rw [run_ok_of_schema d t h]
  show (((t.rows.map applyNormalize).filter keepRow1B).filter keepRow2B).map project
      = (t.rows.filter keepAllB).map projNorm
  rw [List.filter_map, List.filter_map, List.filter_filter, List.map_map]
  congr 1
  apply List.filter_congr
  intro r _
  exact keepAllB_comm r

lemma runOutput_error (d : Bool) (t : Table) (h : ¬ ∀ c ∈ required_cols, c ∈ t.header) :
    runOutput d t = [] := by
  unfold runOutput
  rw [run_error_of_schema d t h]

lemma applyNormalize_seq (r : Row) :
    applyNormalize r COL_COLLEGE_SEQ = toNumericCell (r COL_COLLEGE_SEQ) := by
  simp [applyNormalize]

lemma applyNormalize_status_norm (r : Row) :
    applyNormalize r COL_STATUS_NORM = strNormCell (r COL_ENROLL_STATUS) := by
  simp [applyNormalize, COL_STATUS_NORM, COL_COLLEGE_SEQ]

lemma applyNormalize_grad_norm (r : Row) :
    applyNormalize r COL_GRAD_NORM = strNormCell (r COL_GRADUATED) := by
  simp [applyNormalize, COL_GRAD_NORM, COL_STATUS_NORM, COL_COLLEGE_SEQ]

lemma applyNormalize_output (r : Row) (c : String) (hc : c ∈ output_cols)
    (hne : c ≠ COL_COLLEGE_SEQ) : applyNormalize r c = r c := by
  have h1 : c ≠ COL_STATUS_NORM := by
    rintro rfl
    exact absurd hc (by decide)
  have h2 : c ≠ COL_GRAD_NORM := by
    rintro rfl
    exact absurd hc (by decide)
  simp [applyNormalize, hne, h1, h2]

lemma keepAll_eq_cells (r : Row) :
    keepAllB r =
      ((cellGtOne (toNumericCell (r COL_COLLEGE_SEQ)) &&
        !isinWD (strNormCell (r COL_ENROLL_STATUS))) &&
       cellNeY (strNormCell (r COL_GRADUATED))) := by
  have hg : applyNormalize r COL_GRADUATED = r COL_GRADUATED :=
    applyNormalize_output r COL_GRADUATED (by decide) (by decide)
  unfold keepAllB keepRow1B keepRow2B
  rw [applyNormalize_seq, applyNormalize_status_norm, hg]

lemma keepAll_eq_spec (r : Row) : keepAllB r = specKeepB r := by
  rw [keepAll_eq_cells]
  unfold specKeepB
  congr 1
  congr 1
  · cases hseq : r COL_COLLEGE_SEQ with
    | str s =>
        cases hp : parseNum s <;>
          simp [toNumericCell, parsedNumOfCell, cellGtOne, hp]
    | nan => simp [toNumericCell, parsedNumOfCell, cellGtOne]
    | num q => simp [toNumericCell, parsedNumOfCell, cellGtOne]
  · cases hst : r COL_ENROLL_STATUS <;> simp [strNormCell, isinWD]

lemma keep_congr (r r' : Row) (hpr : projNorm r' = projNorm r) :
    keepAllB r' = keepAllB r := by
  simp only [projNorm, project, output_cols, List.map_cons, List.map_nil,
    List.cons.injEq, Prod.mk.injEq, true_and, and_true] at hpr
  obtain ⟨h1, h2, h3, h4, h5, h6, h7, h8, h9, h10, h11⟩ := hpr
  have hseq : toNumericCell (r' COL_COLLEGE_SEQ) = toNumericCell (r COL_COLLEGE_SEQ) := by
    rw [applyNormalize_seq, applyNormalize_seq] at h10
    exact h10
  have hst : r' COL_ENROLL_STATUS = r COL_ENROLL_STATUS := by
    rw [applyNormalize_output r' COL_ENROLL_STATUS (by decide) (by decide),
      applyNormalize_output r COL_ENROLL_STATUS (by decide) (by decide)] at h8
    exact h8
  have hgr : r' COL_GRADUATED = r COL_GRADUATED := by
    rw [applyNormalize_output r' COL_GRADUATED (by decide) (by decide),
      applyNormalize_output r COL_GRADUATED (by decide) (by decide)] at h11
    exact h11
  rw [keepAll_eq_cells, keepAll_eq_cells, hseq, hst, hgr]

lemma toNumeric_nan_of_none (c : Cell) (h : parsedNumOfCell c = none) :
    toNumericCell c = Cell.nan := by
  cases c with
  | str s =>
      have hp : parseNum s = none := h
      simp [toNumericCell, hp]
  | nan => rfl
  | num q => exact absurd h (by simp [parsedNumOfCell])

lemma toNumeric_num_of_some (c : Cell) (q : Rat) (h : parsedNumOfCell c = some q) :
    toNumericCell c = Cell.num q := by
  cases c with
  | str s =>
      have hp : parseNum s = some q := h
      simp [toNumericCell, hp]
  | nan => exact absurd h (by simp [parsedNumOfCell])
  | num p =>
      have : p = q := by simpa [parsedNumOfCell] using h
      simp [toNumericCell, this]

/-- C1: for every row of a schema-valid input table, the row's projected
image is present in the output if and only if its College Sequence cell
parses as a number strictly greater than 1, its uppercased
whitespace-trimmed Enrollment Status is not W and not D, and its uppercased
whitespace-trimmed Graduated? flag is not Y. -/
theorem claim_C1_filter_iff (d : Bool) (t : Table)
    (h : ∀ c ∈ required_cols, c ∈ t.header) (r : Row) (hr : r ∈ t.rows) :
    projNorm r ∈ runOutput d t ↔ specKeepB r = true := by
  rw [runOutput_char d t h]
  constructor
  · intro hm
    rcases List.mem_map.mp hm with ⟨r2, hr2, hpr⟩
    have hkeep := (List.mem_filter.mp hr2).2
    rw [← keepAll_eq_spec, ← keep_congr r r2 hpr]
    exact hkeep
  · intro hs
    exact List.mem_map.mpr
      ⟨r, List.mem_filter.mpr ⟨hr, by rw [keepAll_eq_spec]; exact hs⟩, rfl⟩

/-- C2: the run fails (with the schema error, producing no output table)
exactly when one of the eleven required column names is absent from the
input header, and succeeds exactly when all eleven are present. -/
theorem claim_C2_schema_gate (d : Bool) (t : Table) :
    ((∃ e, run d t = Except.error e) ↔ ∃ c ∈ required_cols, c ∉ t.header) ∧
    ((∃ res, run d t = Except.ok res) ↔ ∀ c ∈ required_cols, c ∈ t.header) := by
  by_cases h : ∀ c ∈ required_cols, c ∈ t.header
  · rw [run_ok_of_schema d t h]
    constructor
    · simp only [iff_iff_implies_and_implies]
      constructor
      · rintro ⟨e, he⟩
        exact absurd he (by simp)
      · rintro ⟨c, hc, hnc⟩
        exact absurd (h c hc) hnc
    · exact ⟨fun _ => h, fun _ => ⟨_, rfl⟩⟩
  · rw [run_error_of_schema d t h]
    push_neg at h
    constructor
    · simpa using h
    · constructor
      · rintro ⟨res, hres⟩
        exact absurd hres (by simp)
      · intro hall
        rcases h with ⟨c, hc, hnc⟩
        exact absurd (hall c hc) hnc

/-- C3: the output is always the projection of a subsequence of the input
rows: each input row (by position) contributes at most one output row, and
surviving rows keep their relative input order. -/
theorem claim_C3_stable_filter (d : Bool) (t : Table) :
    ∃ kept : List Row, kept.Sublist t.rows ∧ runOutput d t = kept.map projNorm := by
  by_cases h : ∀ c ∈ required_cols, c ∈ t.header
  · exact ⟨t.rows.filter keepAllB, List.filter_sublist t.rows, runOutput_char d t h⟩
  · exact ⟨[], List.nil_sublist t.rows, by rw [runOutput_error d t h]; rfl⟩

/-- C4: every output row carries exactly the eleven specified columns in
the fixed output order, whatever extra columns the input had; neither extra
input columns nor the derived normalization columns ever appear. -/
theorem claim_C4_projection (d : Bool) (t : Table) (x : OutRow)
    (hx : x ∈ runOutput d t) :
    x.map Prod.fst =
      ["First Name", "Middle Initial", "Last Name", "Requester Return Field",
       "College Name", "Enrollment Major 1", "Class Level", "Enrollment Status",
       "Enrollment End", "College Sequence", "Graduated?"] := by
  by_cases h : ∀ c ∈ required_cols, c ∈ t.header
  · rw [runOutput_char d t h] at hx
    rcases List.mem_map.mp hx with ⟨r, _, rfl⟩
    rfl
  · rw [runOutput_error d t h] at hx
    exact absurd hx (List.not_mem_nil x)

/-- C5: a row whose College Sequence cell has no numeric parse gets the NaN
sentinel (never a default number), the sentinel compares false against the
greater-than-1 threshold, and the row is excluded from the output. -/
theorem claim_C5_parse_failure (d : Bool) (t : Table) (r : Row) (hr : r ∈ t.rows)
    (hp : parsedNumOfCell (r COL_COLLEGE_SEQ) = none) :
    toNumericCell (r COL_COLLEGE_SEQ) = Cell.nan ∧
    cellGtOne (toNumericCell (r COL_COLLEGE_SEQ)) = false ∧
    projNorm r ∉ runOutput d t := by
  have hnan : toNumericCell (r COL_COLLEGE_SEQ) = Cell.nan := toNumeric_nan_of_none _ hp
  refine ⟨hnan, by rw [hnan]; rfl, ?_⟩
  intro hm
  by_cases h : ∀ c ∈ required_cols, c ∈ t.header
  · rw [runOutput_char d t h] at hm
    rcases List.mem_map.mp hm with ⟨r2, hr2, hpr⟩
    have hkeep := (List.mem_filter.mp hr2).2
    have hkr : keepAllB r = true := by
      rw [← keep_congr r r2 hpr]
      exact hkeep
    rw [keepAll_eq_cells, hnan] at hkr
    simp [cellGtOne] at hkr
  · rw [runOutput_error d t h] at hm
    exact List.not_mem_nil _ hm

/-- C6: every output row comes from an input row, and in the ten columns
other than College Sequence it carries that input row's field values
verbatim. -/
theorem claim_C6_verbatim (d : Bool) (t : Table) (x : OutRow)
    (hx : x ∈ runOutput d t) :
    ∃ r, r ∈ t.rows ∧ x = projNorm r ∧
      ∀ c ∈ output_cols, c ≠ COL_COLLEGE_SEQ → (c, r c) ∈ x := by
  by_cases h : ∀ c ∈ required_cols, c ∈ t.header
  · rw [runOutput_char d t h] at hx
    rcases List.mem_map.mp hx with ⟨r, hr, rfl⟩
    refine ⟨r, (List.mem_filter.mp hr).1, rfl, ?_⟩
    intro c hc hne
    rw [← applyNormalize_output r c hc hne]
    unfold projNorm project
    exact List.mem_map.mpr ⟨c, hc, rfl⟩
  · rw [runOutput_error d t h] at hx
    exact absurd hx (List.not_mem_nil x)

/-- C7: the pipeline is deterministic: it is a pure function of the debug
flag and the input table alone (no clock, randomness or hidden state in the
embedding), so byte-for-byte identical inputs give identical results. -/
theorem claim_C7_deterministic (d : Bool) (t1 t2 : Table) (h : t1 = t2) :
    run d t1 = run d t2 := by
  rw [h]

/-- C8: the DEBUG toggle only changes the reported stage counts, never the
output table: the table component of the run result is identical for
DEBUG true and DEBUG false. -/
theorem claim_C8_debug_noninterference (t : Table) :
    (run true t).map Prod.fst = (run false t).map Prod.fst := by
  by_cases h : ∀ c ∈ required_cols, c ∈ t.header
  · rw [run_ok_of_schema true t h, run_ok_of_schema false t h]
    rfl
  · rw [run_error_of_schema true t h, run_error_of_schema false t h]

/-- C9: a row whose Enrollment Status cell is missing passes the status
test (a missing status matches neither W nor D), a missing Graduated? cell
is never treated as Y, and such a row appears in the output whenever its
College Sequence parses as a number strictly greater than 1. -/
theorem claim_C9_missing_cells (d : Bool) (t : Table)
    (h : ∀ c ∈ required_cols, c ∈ t.header) (r : Row) (hr : r ∈ t.rows)
    (hs : r COL_ENROLL_STATUS = Cell.nan) (hg : r COL_GRADUATED = Cell.nan)
    (hq : ∃ q, parsedNumOfCell (r COL_COLLEGE_SEQ) = some q ∧ 1 < q) :
    isinWD (strNormCell (r COL_ENROLL_STATUS)) = false ∧
    cellNeY (strNormCell (r COL_GRADUATED)) = true ∧
    projNorm r ∈ runOutput d t := by
  obtain ⟨q, hpq, hq1⟩ := hq
  have hnum : toNumericCell (r COL_COLLEGE_SEQ) = Cell.num q :=
    toNumeric_num_of_some _ _ hpq
  refine ⟨by rw [hs]; rfl, by rw [hg]; rfl, ?_⟩
  rw [runOutput_char d t h]
  refine List.mem_map.mpr ⟨r, List.mem_filter.mpr ⟨hr, ?_⟩, rfl⟩
  rw [keepAll_eq_cells, hnum, hs, hg]
  simp [cellGtOne, strNormCell, isinWD, cellNeY, hq1]

/-- C10: on a normalized row, the stage-2 graduated check of line 74 (which
re-normalizes the raw Graduated? column inline) decides exactly as the
check over the precomputed derived column of line 62. -/
theorem claim_C10_grad_check_equiv (r : Row) :
    keepRow2B (applyNormalize r) = gradCheckViaNormCol (applyNormalize r) := by
  unfold keepRow2B gradCheckViaNormCol
  rw [applyNormalize_grad_norm]
  rw [applyNormalize_output r COL_GRADUATED (by decide) (by decide)]

/-- Witness for C1: the concrete Scenario-A row (sequence 2, status E, not
graduated) satisfies the predicate and its projection is in the output. -/
theorem claim_C1_filter_iff_witness :
    specKeepB rowA = true ∧ projNorm rowA ∈ runOutput true tableA :=
  ⟨by decide,
   (claim_C1_filter_iff true tableA (by decide) rowA
     (List.mem_singleton.mpr rfl)).mpr (by decide)⟩

/-- Witness for C4: the output row produced from the Scenario-A table has
exactly the eleven output column names in order. -/
theorem claim_C4_projection_witness :
    (projNorm rowA).map Prod.fst =
      ["First Name", "Middle Initial", "Last Name", "Requester Return Field",
       "College Name", "Enrollment Major 1", "Class Level", "Enrollment Status",
       "Enrollment End", "College Sequence", "Graduated?"] :=
  claim_C4_projection true tableA (projNorm rowA) (by decide)

/-- Witness for C5: the concrete Scenario-E row (sequence text abc) parses
to the NaN sentinel, fails the threshold, and is excluded. -/
theorem claim_C5_parse_failure_witness :
    toNumericCell (rowC COL_COLLEGE_SEQ) = Cell.nan ∧
    cellGtOne (toNumericCell (rowC COL_COLLEGE_SEQ)) = false ∧
    projNorm rowC ∉ runOutput true tableC :=
  claim_C5_parse_failure true tableC rowC (List.mem_singleton.mpr rfl) (by decide)

/-- Witness for C6: the output row of the Scenario-A table comes verbatim
from an input row in all columns other than College Sequence. -/
theorem claim_C6_verbatim_witness :
    ∃ r, r ∈ tableA.rows ∧ projNorm rowA = projNorm r ∧
      ∀ c ∈ output_cols, c ≠ COL_COLLEGE_SEQ → (c, r c) ∈ projNorm rowA :=
  claim_C6_verbatim true tableA (projNorm rowA) (by decide)

/-- Witness for C7: running the pipeline twice on the concrete table gives
the same result. -/
theorem claim_C7_deterministic_witness : run DEBUG tableA = run DEBUG tableA :=
  claim_C7_deterministic DEBUG tableA tableA rfl

/-- Witness for C9: the concrete row with missing status and graduated
cells and sequence 3 passes both normalization checks and appears in the
output. -/
theorem claim_C9_missing_cells_witness :
    isinWD (strNormCell (rowB COL_ENROLL_STATUS)) = false ∧
    cellNeY (strNormCell (rowB COL_GRADUATED)) = true ∧
    projNorm rowB ∈ runOutput true tableB :=
  claim_C9_missing_cells true tableB (by decide) rowB (List.mem_singleton.mpr rfl)
    (by decide) (by decide) ⟨3, by decide⟩
